import Mathlib

/-!
Verification development for the Materavista molecular-dynamics web platform.

The repository wires a Next.js frontend to a FastAPI backend that runs LAMMPS
jobs.  The TypeScript API routes (pages/api/simulate and
pages/api/trajectory/[id]), the GraphQL documents and the Hasura schema are
embedded here directly from the sources.  The backend pipeline components
(engine runner, trajectory parsing, observable calculation, artifact store,
job lifecycle driver) are not part of the checked-in sources; where a claim
depends on them they are modelled from the specification text, and each such
definition is marked `Modelled from the spec:` in its doc comment.
-/

namespace Materavista

/-- Character-list matcher: the first list occurs at the very front of the
second list, comparing characters exactly. -/
def strStartsWith : List Char → List Char → Bool
  | [], _ => true
  | _ :: _, [] => false
  | p :: ps, c :: cs => p == c && strStartsWith ps cs

/-- Substring containment on character lists, the semantics of the JavaScript
String.prototype.includes calls in the simulate handler. -/
def hasSubList (pat : List Char) : List Char → Bool
  | [] => strStartsWith pat []
  | c :: cs => strStartsWith pat (c :: cs) || hasSubList pat cs

/-- JavaScript s.includes(pat) on Lean strings. -/
def strIncludes (s pat : String) : Bool := hasSubList pat.toList s.toList

/-- The SimulationResponse payload shape of frontend/src/types: every field is
optional, floating-point series are modelled as exact rationals. -/
structure SimulationResponse where
  msd : Option (List ℚ)
  kinetic_energy : Option (List ℚ)
  frames : Option Nat
  atoms : Option Nat
  error : Option String
  trajectory_file_id : Option String
deriving DecidableEq

/-- HTTP request methods distinguished by the API route handlers. -/
inductive HttpMethod
  | get
  | post
  | other
deriving DecidableEq

/-- A JSON field of a request body or query: absent, present but not a string,
or a string value.  JavaScript falsiness of the empty string is handled at the
use sites. -/
inductive JsonField
  | absent
  | nonString
  | str (s : String)
deriving DecidableEq

/-- The request consumed by the api/simulate route. -/
structure SimulateRequest where
  method : HttpMethod
  input_content : JsonField
  potential_file_id : Option String
deriving DecidableEq

/-- Outcome of the awaited axios call to the backend run-lammps endpoint, as
distinguished by the catch clauses of the simulate handler. -/
inductive BackendOutcome
  | success (data : SimulationResponse)
  | httpError (status : Nat) (detail : String)
  | timeout
  | connReset
  | otherError
deriving DecidableEq

/-- Response body of an API route: a JSON data payload, a JSON error object, or
raw text. -/
inductive ResponseBody
  | ok (data : SimulationResponse)
  | err (message : String)
  | text (content : String)
deriving DecidableEq

/-- Result of serving one API request.  backendInvoked records whether the
handler reached its awaited backend call while serving the request. -/
structure HandlerResult where
  status : Nat
  body : ResponseBody
  backendInvoked : Bool
deriving DecidableEq

/-- The 400 message of the empty-or-missing input_content check in
pages/api/simulate. -/
def validationMsg : String := "Input content is required and must be a string"

/-- The 400 message of the read_data screening check in pages/api/simulate. -/
def readDataMsg : String :=
  "Your input file references external data files with read_data command. This may cause errors as the referenced files are not available."

/-- The 500 message used when NEXT_PUBLIC_API_URL is not set. -/
def noUrlMsg : String := "Backend API URL is not configured"

/-- The 504 message of the ECONNABORTED catch clause in pages/api/simulate. -/
def timeoutMsg : String :=
  "Simulation timed out. The operation took too long to complete. Try reducing the number of timesteps or simplifying your simulation."

/-- The 503 message of the ECONNRESET catch clause in pages/api/simulate. -/
def connResetMsg : String :=
  "Connection was reset. The backend service might be unavailable or the simulation might be too complex. Try simplifying your simulation parameters."

/-- The fallback 500 message of pages/api/simulate. -/
def genericRunFailMsg : String :=
  "Failed to run LAMMPS simulation. Please check your input file for errors and try again."

/-- The axios client timeout, in milliseconds, placed on the run-lammps call in
pages/api/simulate. -/
def simulateAxiosTimeoutMs : Nat := 600000

/-- Shallow embedding of the api/simulate Next.js handler.  The handler awaits
the backend run-lammps call synchronously; that await is modelled by passing
the completed BackendOutcome as an argument, and backendInvoked records that
the request only finishes after the backend call has finished. -/
def simulateHandler (req : SimulateRequest) (backendUrlConfigured : Bool)
    (backend : BackendOutcome) : HandlerResult :=
  if req.method ≠ HttpMethod.post then ⟨405, .err "Method not allowed", false⟩
  else
    match req.input_content with
    | .absent => ⟨400, .err validationMsg, false⟩
    | .nonString => ⟨400, .err validationMsg, false⟩
    | .str s =>
      if s = "" then ⟨400, .err validationMsg, false⟩
      else if strIncludes s "read_data" && !strIncludes s "# read_data" then
        ⟨400, .err readDataMsg, false⟩
      else if !backendUrlConfigured then ⟨500, .err noUrlMsg, false⟩
      else
        match backend with
        | .success d => ⟨200, .ok d, true⟩
        | .httpError st detail => ⟨st, .err ("Backend API error: " ++ detail), true⟩
        | .timeout => ⟨504, .err timeoutMsg, true⟩
        | .connReset => ⟨503, .err connResetMsg, true⟩
        | .otherError => ⟨500, .err genericRunFailMsg, true⟩

/-- Outcome of the awaited axios call to the backend trajectory endpoint. -/
inductive TrajBackendOutcome
  | success (content : String)
  | httpError (status : Nat) (detail : String)
  | otherError
deriving DecidableEq

/-- The 400 message of the missing-id check in pages/api/trajectory/[id]. -/
def trajectoryIdMsg : String := "Trajectory ID is required"

/-- The fallback 500 message of pages/api/trajectory/[id]. -/
def trajFetchFailMsg : String :=
  "Failed to fetch trajectory file. Please try again later."

/-- Shallow embedding of the api/trajectory/[id] Next.js handler: it forwards
the backend response verbatim, sending raw text on success and forwarding the
backend status code on an HTTP error. -/
def trajectoryHandler (method : HttpMethod) (id : JsonField)
    (backendUrlConfigured : Bool) (backend : TrajBackendOutcome) : HandlerResult :=
  if method ≠ HttpMethod.get then ⟨405, .err "Method not allowed", false⟩
  else
    match id with
    | .absent => ⟨400, .err trajectoryIdMsg, false⟩
    | .nonString => ⟨400, .err trajectoryIdMsg, false⟩
    | .str i =>
      if i = "" then ⟨400, .err trajectoryIdMsg, false⟩
      else if !backendUrlConfigured then ⟨500, .err noUrlMsg, false⟩
      else
        match backend with
        | .success c => ⟨200, .text c, true⟩
        | .httpError st detail => ⟨st, .err ("Backend API error: " ++ detail), true⟩
        | .otherError => ⟨500, .err trajFetchFailMsg, true⟩

/-- The status literal inserted by the CREATE_SIMULATION GraphQL mutation in
frontend/src/graphql/mutations.ts. -/
def createSimulationStatus : String := "pending"

/-- The DEFAULT value of the simulations.status column in the Hasura migration
up.sql. -/
def sqlSimulationsStatusDefault : String := "pending"

/-- The four job statuses of the data model. -/
inductive JobStatus
  | pending
  | running
  | completed
  | failed
deriving DecidableEq

/-- Textual form of a job status as stored in the simulations.status column. -/
def JobStatus.text : JobStatus → String
  | .pending => "pending"
  | .running => "running"
  | .completed => "completed"
  | .failed => "failed"

/-- Modelled from the spec: the job lifecycle transition relation (the backend
job driver is not under src).  A job moves from pending to running when the
engine is invoked, from running to completed or failed, and cancellation may
move a pending job directly to failed. -/
inductive StatusStep : JobStatus → JobStatus → Prop
  | start : StatusStep .pending .running
  | complete : StatusStep .running .completed
  | failRun : StatusStep .running .failed
  | cancel : StatusStep .pending .failed

/-- Modelled from the spec: Engine Runner configuration with the wall-clock
timeout in milliseconds, defaulting to 10 minutes (the Engine Runner is not
under src). -/
structure RunnerConfig where
  timeoutMs : Nat := 600000
deriving DecidableEq

/-- The runner configuration with every field left at its default. -/
def defaultRunnerConfig : RunnerConfig := {}

/-- Modelled from the spec: the externally observable behaviour of one engine
subprocess run — its wall-clock duration, exit code, and dump output (none
when the expected dump file is missing). -/
structure EngineBehavior where
  wallClockMs : Nat
  exitCode : Int
  dumpOutput : Option String
deriving DecidableEq

/-- Modelled from the spec: the failure taxonomy of the Engine Runner plus the
successful case carrying the dump text. -/
inductive RunOutcome
  | engineError (tail : String)
  | timeoutError
  | outputMissingError
  | ok (dump : String)
deriving DecidableEq

/-- Modelled from the spec: the Engine Runner spawns the engine as a timed
child process; the timeout fires when the run exceeds the configured bound, a
nonzero exit yields EngineError, and a zero exit with a missing or empty dump
yields OutputMissingError. -/
def runEngine (cfg : RunnerConfig) (e : EngineBehavior) : RunOutcome :=
  if cfg.timeoutMs < e.wallClockMs then .timeoutError
  else if e.exitCode ≠ 0 then .engineError "engine exited with nonzero status"
  else
    match e.dumpOutput with
    | none => .outputMissingError
    | some d => if d = "" then .outputMissingError else .ok d

/-- Modelled from the spec: the tagged result variant of the design notes —
Success carrying both series, both counts and the artifact id, or Failure
carrying a message. -/
inductive JobResult
  | success (msd kineticEnergy : List ℚ) (frames atoms : Nat) (artifactId : String)
  | failure (message : String)
deriving DecidableEq

/-- Modelled from the spec: serialization of a job result into the
optional-field response payload; a success populates the series, counts and
artifact id and no error, a failure populates only the error field. -/
def serializeResult : JobResult → SimulationResponse
  | .success m k f a tid => ⟨some m, some k, some f, some a, none, some tid⟩
  | .failure msg => ⟨none, none, none, none, some msg, none⟩

/-- Modelled from the spec: mapping an engine run outcome to a terminal job
result; a timed-out run becomes a failure whose message indicates the timeout,
and only a successful run proceeds to parsing and observable computation. -/
def resultOfRun (o : RunOutcome) (parseCompute : String → JobResult) : JobResult :=
  match o with
  | .engineError tail => .failure ("LAMMPS run failed: " ++ tail)
  | .timeoutError => .failure "LAMMPS simulation timed out"
  | .outputMissingError => .failure "LAMMPS produced no trajectory output"
  | .ok dump => parseCompute dump

/-- Modelled from the spec: the terminal status reached by a finished job. -/
def statusOfResult : JobResult → JobStatus
  | .success .. => .completed
  | .failure _ => .failed

/-- Error text of a finished job result, when present. -/
def errorTextOfResult : JobResult → Option String
  | .success .. => none
  | .failure m => some m

/-- A stored artifact table: pairs of artifact id and raw trajectory text. -/
def ArtifactStore : Type := List (String × String)

/-- Lookup of an artifact id in the store. -/
def lookupArtifact (store : ArtifactStore) (id : String) : Option String :=
  (List.find? (fun p => p.1 == id) store).map Prod.snd

/-- Modelled from the spec: the Result Store trajectory retrieval collaborator
(the backend trajectory endpoint is not under src) — the raw trajectory text
for a stored id, and a 404 error for an unknown or purged id. -/
def storeBackend (store : ArtifactStore) (id : String) : TrajBackendOutcome :=
  match lookupArtifact store id with
  | some c => .success c
  | none => .httpError 404 "Trajectory file not found"

/-- Exact 3-component vector over the rationals. -/
structure Vec3 where
  x : ℚ
  y : ℚ
  z : ℚ
deriving DecidableEq

/-- Modelled from the spec: one per-atom record of a parsed frame — id, type,
position and velocity. -/
structure AtomRecord where
  id : Nat
  type : Nat
  pos : Vec3
  vel : Vec3
deriving DecidableEq

/-- Modelled from the spec: one parsed trajectory frame; atom records are
addressed by atom id, not by file order. -/
structure Frame where
  timestep : Nat
  atoms : List AtomRecord
deriving DecidableEq

/-- Lookup of an atom record by id within a frame. -/
def Frame.lookup (f : Frame) (i : Nat) : Option AtomRecord :=
  f.atoms.find? (fun a => a.id == i)

/-- Squared Euclidean distance of two positions. -/
def sqDist (p q : Vec3) : ℚ :=
  (p.x - q.x) ^ 2 + (p.y - q.y) ^ 2 + (p.z - q.z) ^ 2

/-- Squared magnitude of a velocity. -/
def sqNorm (v : Vec3) : ℚ := v.x ^ 2 + v.y ^ 2 + v.z ^ 2

/-- Modelled from the spec: MSD at one frame — the average over the atoms of
the reference frame of the squared Euclidean displacement of the atom with the
same id. -/
def msdAt (ref cur : Frame) : ℚ :=
  (ref.atoms.map (fun a =>
    match cur.lookup a.id with
    | some b => sqDist b.pos a.pos
    | none => 0)).sum / (ref.atoms.length : ℚ)

/-- Modelled from the spec: kinetic energy at one frame — half the sum over
atoms of mass(type) times the squared velocity magnitude; the per-type mass
table is a parameter. -/
def keAt (mass : Nat → ℚ) (f : Frame) : ℚ :=
  (1 / 2) * (f.atoms.map (fun a => mass a.type * sqNorm a.vel)).sum

/-- Observable series and counts of one completed job. -/
structure Observables where
  msd : List ℚ
  kineticEnergy : List ℚ
  frames : Nat
  atoms : Nat
deriving DecidableEq

/-- Modelled from the spec: the Observable Calculator — both series run
one-to-one with the frames, MSD compares each frame against the fixed first
frame, and a zero atom count short-circuits to a ComputeError. -/
def computeObservables (mass : Nat → ℚ) (frames : List Frame) :
    Except String Observables :=
  match frames with
  | [] => Except.error "ComputeError: empty trajectory"
  | f0 :: rest =>
    if f0.atoms.length = 0 then Except.error "ComputeError: atom count is zero"
    else
      Except.ok
        { msd := (f0 :: rest).map (msdAt f0)
          kineticEnergy := (f0 :: rest).map (keAt mass)
          frames := (f0 :: rest).length
          atoms := f0.atoms.length }

/-- Atom ids of a frame in record order. -/
def frameIds (f : Frame) : List Nat := f.atoms.map AtomRecord.id

/-- Modelled from the spec: a valid parsed trajectory — at least one frame, a
positive atom count, atom ids unique within each frame, and every frame
carrying exactly the atom ids of the reference frame (the parser rejects any
mismatch). -/
def ValidTrajectory : List Frame → Prop
  | [] => False
  | f0 :: rest =>
    f0.atoms ≠ [] ∧ (frameIds f0).Nodup ∧
      ∀ f ∈ f0 :: rest, (frameIds f).Nodup ∧ (frameIds f).Perm (frameIds f0)

instance instDecidableValidTrajectory (fs : List Frame) :
    Decidable (ValidTrajectory fs) := by
  cases fs with
  | nil => exact isFalse (fun h => h)
  | cons f0 rest =>
    exact inferInstanceAs (Decidable (_ ∧ _ ∧ _))

/-- The scenario trajectory of the spec: 2 atoms over 3 frames, atom 1 fixed at
the origin and atom 2 moving along the x axis, all velocities zero. -/
def scenarioFrames : List Frame :=
  [⟨0, [⟨1, 1, ⟨0, 0, 0⟩, ⟨0, 0, 0⟩⟩, ⟨2, 1, ⟨0, 0, 0⟩, ⟨0, 0, 0⟩⟩]⟩,
   ⟨1, [⟨1, 1, ⟨0, 0, 0⟩, ⟨0, 0, 0⟩⟩, ⟨2, 1, ⟨1, 0, 0⟩, ⟨0, 0, 0⟩⟩]⟩,
   ⟨2, [⟨1, 1, ⟨0, 0, 0⟩, ⟨0, 0, 0⟩⟩, ⟨2, 1, ⟨2, 0, 0⟩, ⟨0, 0, 0⟩⟩]⟩]

/-- The mass table assigning mass 1 to every atom type. -/
def unitMass : Nat → ℚ := fun _ => 1

/-- A concrete completed backend payload used in concrete instantiations. -/
def sampleRunData : SimulationResponse :=
  ⟨some [0, 1 / 2], some [0, 0], some 2, some 1, none, some "traj-1"⟩

lemma find_self : ∀ (l : List AtomRecord), (l.map AtomRecord.id).Nodup →
    ∀ a ∈ l, l.find? (fun b => b.id == a.id) = some a := by
  intro l
  induction l with
  | nil => intro _ a ha; exact absurd ha (List.not_mem_nil a)
  | cons c cs ih =>
    intro hnd a ha
    rw [List.map_cons, List.nodup_cons] at hnd
    rcases List.mem_cons.mp ha with h | h
    · subst h
      rw [List.find?_cons_of_pos _ (by simp)]
    · have hne : (c.id == a.id) = false := by
        rw [beq_eq_false_iff_ne]
        intro he
        exact hnd.1 (he ▸ List.mem_map_of_mem AtomRecord.id h)
      rw [List.find?_cons_of_neg _ (by simp [hne]), ih hnd.2 a h]

lemma msdAt_self (f : Frame) (hnd : (frameIds f).Nodup) : msdAt f f = 0 := by
  unfold msdAt
  have hz : ∀ x ∈ f.atoms.map (fun a =>
      match f.lookup a.id with
      | some b => sqDist b.pos a.pos
      | none => 0), x = 0 := by
    intro x hx
    rcases List.mem_map.mp hx with ⟨a, ha, rfl⟩
    rw [Frame.lookup, find_self f.atoms hnd a ha]
    simp [sqDist]
  rw [List.sum_eq_zero hz, zero_div]

/-- C1: every serialized run-job result populates exactly one side — a success
carries both series, both counts and the artifact id with no error field, and
a failure carries only the error field. -/
theorem result_all_or_nothing (r : JobResult) :
    ((serializeResult r).error = none ∧
      (serializeResult r).msd.isSome = true ∧
      (serializeResult r).kinetic_energy.isSome = true ∧
      (serializeResult r).frames.isSome = true ∧
      (serializeResult r).atoms.isSome = true ∧
      (serializeResult r).trajectory_file_id.isSome = true) ∨
    ((serializeResult r).error.isSome = true ∧
      (serializeResult r).msd = none ∧
      (serializeResult r).kinetic_energy = none ∧
      (serializeResult r).frames = none ∧
      (serializeResult r).atoms = none ∧
      (serializeResult r).trajectory_file_id = none) := by
  cases r <;> simp [serializeResult]

/-- C2: for every valid trajectory the calculator succeeds, both series have
length equal to the frame count, and the MSD value at frame 0 is 0. -/
theorem observable_series_aligned (mass : Nat → ℚ) (fs : List Frame)
    (hv : ValidTrajectory fs) :
    ∃ obs, computeObservables mass fs = Except.ok obs ∧
      obs.msd.length = fs.length ∧ obs.kineticEnergy.length = fs.length ∧
      obs.msd.head? = some 0 := by
  cases fs with
  | nil => exact absurd hv (fun h => h)
  | cons f0 rest =>
    obtain ⟨hne, hnd, -⟩ := hv
    have hl : f0.atoms.length ≠ 0 := by simpa using hne
    refine ⟨⟨(f0 :: rest).map (msdAt f0), (f0 :: rest).map (keAt mass),
      (f0 :: rest).length, f0.atoms.length⟩, ?_, ?_, ?_, ?_⟩
    · simp [computeObservables, hl]
    · simp
    · simp
    · simp [msdAt_self f0 hnd]

theorem observable_series_aligned_witness :
    ValidTrajectory scenarioFrames ∧
    ∃ obs, computeObservables unitMass scenarioFrames = Except.ok obs ∧
      obs.msd.length = scenarioFrames.length ∧
      obs.kineticEnergy.length = scenarioFrames.length ∧
      obs.msd.head? = some 0 :=
  ⟨by decide, observable_series_aligned unitMass scenarioFrames (by decide)⟩

/-- C3: for the 2-atom, 3-frame scenario with unit masses and zero velocities,
atom A fixed at the origin and atom B at x = 0, 1, 2, the calculator returns
msd = [0, 1/2, 2] and kineticEnergy = [0, 0, 0]. -/
theorem observable_scenario_two_atoms :
    computeObservables unitMass scenarioFrames =
      Except.ok ⟨[0, 1 / 2, 2], [0, 0, 0], 3, 2⟩ := by
  simp [computeObservables, scenarioFrames, msdAt, keAt, Frame.lookup, sqDist,
    sqNorm, unitMass, List.find?]
  norm_num

/-- C4: a run-job request whose script content is empty is rejected with the
synchronous 400 validation response, produced before the backend call and so
before any engine invocation or job creation; and for every non-empty script
this validation rejection (the response carrying validationMsg that was
produced without invoking the backend) is never produced. -/
theorem simulate_empty_script_rejected (pid : Option String) (b : Bool)
    (o : BackendOutcome) :
    ((simulateHandler ⟨.post, .str "", pid⟩ b o).status = 400 ∧
      (simulateHandler ⟨.post, .str "", pid⟩ b o).body = .err validationMsg ∧
      (simulateHandler ⟨.post, .str "", pid⟩ b o).backendInvoked = false) ∧
    ∀ s : String, s ≠ "" →
      ¬((simulateHandler ⟨.post, .str s, pid⟩ b o).body = .err validationMsg ∧
        (simulateHandler ⟨.post, .str s, pid⟩ b o).backendInvoked = false) := by
  constructor
  · simp [simulateHandler]
  · intro s hs
    cases h1 : (strIncludes s "read_data" && !strIncludes s "# read_data") <;>
      cases b <;> cases o <;>
        simp [simulateHandler, hs, h1, validationMsg, readDataMsg, noUrlMsg,
          timeoutMsg, connResetMsg, genericRunFailMsg]

theorem simulate_empty_script_rejected_witness :
    ("run 1000" ≠ "") ∧
    ¬((simulateHandler ⟨.post, .str "run 1000", none⟩ true .timeout).body =
        .err validationMsg ∧
      (simulateHandler ⟨.post, .str "run 1000", none⟩ true
          .timeout).backendInvoked = false) :=
  ⟨by decide,
    (simulate_empty_script_rejected none true .timeout).2 "run 1000" (by decide)⟩

/-- C5 as stated fails on the code: at the concrete request with script
"units lj", the simulate handler completes the backend engine run while
serving the request (backendInvoked = true) and its 200 response carries the
completed result payload — not a pending job identifier observed later by
polling. -/
theorem submission_holds_connection_cex :
    (simulateHandler ⟨.post, .str "units lj", none⟩ true
        (.success sampleRunData)).backendInvoked = true ∧
    (simulateHandler ⟨.post, .str "units lj", none⟩ true
        (.success sampleRunData)).status = 200 ∧
    (simulateHandler ⟨.post, .str "units lj", none⟩ true
        (.success sampleRunData)).body = .ok sampleRunData :=
  ⟨rfl, rfl, rfl⟩

/-- C5 amended: run-job submission holds the request connection open for the
run — every request passing the synchronous checks completes the awaited
backend call while being served, and when the backend run succeeds the same
response returns the completed result rather than a pending identifier. -/
theorem submission_synchronous (s : String) (pid : Option String)
    (o : BackendOutcome) (hs : s ≠ "")
    (hr : (strIncludes s "read_data" && !strIncludes s "# read_data") = false) :
    (simulateHandler ⟨.post, .str s, pid⟩ true o).backendInvoked = true ∧
    ∀ d, o = .success d →
      (simulateHandler ⟨.post, .str s, pid⟩ true o).status = 200 ∧
      (simulateHandler ⟨.post, .str s, pid⟩ true o).body = .ok d := by
  constructor
  · cases o <;> simp [simulateHandler, hs, hr]
  · intro d hd
    subst hd
    simp [simulateHandler, hs, hr]

theorem submission_synchronous_witness :
    ("units lj" ≠ "") ∧
    ((strIncludes "units lj" "read_data" &&
      !strIncludes "units lj" "# read_data") = false) ∧
    ((simulateHandler ⟨.post, .str "units lj", none⟩ true
        (.success sampleRunData)).backendInvoked = true ∧
      ∀ d, BackendOutcome.success sampleRunData = .success d →
        (simulateHandler ⟨.post, .str "units lj", none⟩ true
            (.success sampleRunData)).status = 200 ∧
        (simulateHandler ⟨.post, .str "units lj", none⟩ true
            (.success sampleRunData)).body = .ok d) :=
  ⟨by decide, by decide,
    submission_synchronous "units lj" none (.success sampleRunData)
      (by decide) (by decide)⟩

/-- C6: the Engine Runner model enforces a configurable wall-clock timeout
whose default is 600000 ms; for any configured bound the run times out exactly
when the subprocess exceeds that bound, and the axios client bound placed on
the run-lammps call in the simulate route is the same 600000 ms. -/
theorem runner_timeout_default_config :
    defaultRunnerConfig.timeoutMs = 600000 ∧
    simulateAxiosTimeoutMs = 600000 ∧
    ∀ (t : Nat) (e : EngineBehavior),
      (runEngine ⟨t⟩ e = RunOutcome.timeoutError ↔ t < e.wallClockMs) := by
  refine ⟨rfl, rfl, fun t e => ?_⟩
  have hnt : ∀ (z : Int) (dop : Option String),
      (if z ≠ 0 then RunOutcome.engineError "engine exited with nonzero status"
       else
         match dop with
         | none => RunOutcome.outputMissingError
         | some d =>
           if d = "" then RunOutcome.outputMissingError else RunOutcome.ok d) ≠
        RunOutcome.timeoutError := by
    intro z dop
    by_cases hz : z ≠ 0
    · simp [hz]
    · cases dop with
      | none => simp [hz]
      | some d => by_cases hd : d = "" <;> simp [hz, hd]
  unfold runEngine
  by_cases hlt : t < e.wallClockMs
  · rw [if_pos hlt]
    simp [hlt]
  · rw [if_neg hlt]
    exact iff_of_false (hnt _ _) hlt

/-- C7: a run whose engine subprocess exceeds the configured timeout ends the
job in status failed, with error text indicating a timeout, and the serialized
result carries no trajectory artifact id. -/
theorem timeout_fails_job_without_artifact (cfg : RunnerConfig)
    (e : EngineBehavior) (pc : String → JobResult)
    (h : cfg.timeoutMs < e.wallClockMs) :
    statusOfResult (resultOfRun (runEngine cfg e) pc) = .failed ∧
    (∃ m, errorTextOfResult (resultOfRun (runEngine cfg e) pc) = some m ∧
      strIncludes m "timed out" = true) ∧
    (serializeResult (resultOfRun (runEngine cfg e) pc)).trajectory_file_id =
      none := by
  have hr : runEngine cfg e = .timeoutError := by
    unfold runEngine
    rw [if_pos h]
  rw [hr]
  exact ⟨rfl, ⟨"LAMMPS simulation timed out", rfl, by decide⟩, rfl⟩

theorem timeout_fails_job_without_artifact_witness :
    ((⟨100⟩ : RunnerConfig).timeoutMs <
      (⟨250, 0, none⟩ : EngineBehavior).wallClockMs) ∧
    (statusOfResult (resultOfRun (runEngine ⟨100⟩ ⟨250, 0, none⟩)
        (fun _ => JobResult.failure "x")) = .failed ∧
      (∃ m, errorTextOfResult (resultOfRun (runEngine ⟨100⟩ ⟨250, 0, none⟩)
          (fun _ => JobResult.failure "x")) = some m ∧
        strIncludes m "timed out" = true) ∧
      (serializeResult (resultOfRun (runEngine ⟨100⟩ ⟨250, 0, none⟩)
          (fun _ => JobResult.failure "x"))).trajectory_file_id = none) :=
  ⟨by decide,
    timeout_fails_job_without_artifact ⟨100⟩ ⟨250, 0, none⟩
      (fun _ => JobResult.failure "x") (by decide)⟩

/-- C8: a simulation record is created with status pending — both the
CREATE_SIMULATION GraphQL object and the SQL column default insert the pending
text — statuses range over the four-valued JobStatus type, and the modelled
lifecycle relation only steps out of the non-terminal statuses, never out of
completed or failed. -/
theorem job_created_pending_and_monotonic :
    createSimulationStatus = JobStatus.pending.text ∧
    sqlSimulationsStatusDefault = JobStatus.pending.text ∧
    ∀ a b : JobStatus, StatusStep a b →
      (a = .pending ∨ a = .running) ∧ a ≠ .completed ∧ a ≠ .failed := by
  refine ⟨rfl, rfl, ?_⟩
  intro a b h
  cases h <;> simp

theorem job_created_pending_and_monotonic_witness :
    StatusStep .pending .running ∧
    ((JobStatus.pending = .pending ∨ JobStatus.pending = .running) ∧
      JobStatus.pending ≠ .completed ∧ JobStatus.pending ≠ .failed) :=
  ⟨StatusStep.start,
    job_created_pending_and_monotonic.2.2 JobStatus.pending JobStatus.running
      StatusStep.start⟩

/-- C9: trajectory retrieval by artifact id — with the store-modelled backend,
an id stored in the artifact table yields a 200 response carrying the raw
trajectory text, and an unknown or purged id yields a response with status
404. -/
theorem trajectory_retrieval_contract (store : ArtifactStore) (id : String)
    (hid : id ≠ "") :
    (∀ c, lookupArtifact store id = some c →
      trajectoryHandler .get (.str id) true (storeBackend store id) =
        ⟨200, .text c, true⟩) ∧
    (lookupArtifact store id = none →
      (trajectoryHandler .get (.str id) true
          (storeBackend store id)).status = 404) := by
  constructor
  · intro c hc
    simp [trajectoryHandler, hid, storeBackend, hc]
  · intro hc
    simp [trajectoryHandler, hid, storeBackend, hc]

theorem trajectory_retrieval_contract_witness :
    ("traj-1" ≠ "") ∧
    lookupArtifact [("traj-1", "ATOMS")] "traj-1" = some "ATOMS" ∧
    trajectoryHandler .get (.str "traj-1") true
        (storeBackend [("traj-1", "ATOMS")] "traj-1") =
      ⟨200, .text "ATOMS", true⟩ ∧
    lookupArtifact [("traj-1", "ATOMS")] "zzz" = none ∧
    (trajectoryHandler .get (.str "zzz") true
        (storeBackend [("traj-1", "ATOMS")] "zzz")).status = 404 :=
  ⟨by decide, by decide,
    (trajectory_retrieval_contract [("traj-1", "ATOMS")] "traj-1"
      (by decide)).1 "ATOMS" (by decide),
    by decide,
    (trajectory_retrieval_contract [("traj-1", "ATOMS")] "zzz"
      (by decide)).2 (by decide)⟩

/-- C10: the simulate route rejects a request through the read_data screening
check — a 400 response carrying readDataMsg produced before the backend call —
exactly when the script contains the literal read_data but not the literal
# read_data; requests without that combination are never rejected by this
check. -/
theorem simulate_read_data_screen (s : String) (pid : Option String) (b : Bool)
    (o : BackendOutcome) :
    (((simulateHandler ⟨.post, .str s, pid⟩ b o).body = .err readDataMsg ∧
      (simulateHandler ⟨.post, .str s, pid⟩ b o).backendInvoked = false) ↔
      (strIncludes s "read_data" = true ∧ strIncludes s "# read_data" = false)) ∧
    ((strIncludes s "read_data" = true ∧ strIncludes s "# read_data" = false) →
      (simulateHandler ⟨.post, .str s, pid⟩ b o).status = 400) := by
  by_cases hse : s = ""
  · subst hse
    constructor
    · constructor
      · intro ⟨h1, _⟩
        exact absurd h1 (by simp [simulateHandler, validationMsg, readDataMsg])
      · intro ⟨h1, _⟩
        exact absurd h1 (by decide)
    · intro ⟨h1, _⟩
      exact absurd h1 (by decide)
  · cases h1 : strIncludes s "read_data" <;>
      cases h2 : strIncludes s "# read_data" <;>
        cases b <;> cases o <;>
          simp [simulateHandler, hse, h1, h2, validationMsg, readDataMsg,
            noUrlMsg, timeoutMsg, connResetMsg, genericRunFailMsg]

theorem simulate_read_data_screen_witness :
    (strIncludes "read_data data.lmp" "read_data" = true ∧
      strIncludes "read_data data.lmp" "# read_data" = false) ∧
    (simulateHandler ⟨.post, .str "read_data data.lmp", none⟩ true
        .timeout).status = 400 :=
  ⟨by decide,
    (simulate_read_data_screen "read_data data.lmp" none true .timeout).2
      (by decide)⟩

end Materavista
